/-
Verification of the agentic CVE patcher's core components against its
natural-language specification.

The repository is a conversational vulnerability-remediation assistant.
Its deterministic core is shallowly embedded here:
  * `ssh_run_result`        — SSHClient.run's result selection (src/tools/ssh_client.py)
  * `classify_intent`       — the intent classifier's JSON coercion and
                              catch-all fallback (src/agents/intent_classifier.py)
  * `intent_route_table`    — the router's dispatch table (src/graph_workflow.py)
  * `merge_remediation_plans` — plan merging incl. the deterministic
                              fallback merge (src/agents/add_details.py)
  * `execute_and_analyze_step` — the bounded retry loop of the step
                              executor (src/tools/patcher_tools.py)
  * `patcher_node`          — the patch handler (src/tools/patcher_tools.py)

External collaborators (the language model, the SSH transport, the file
system) are modelled as oracles: each call site receives the outcome of
the external call as an explicit `Except` value, where `Except.error`
stands for a Python exception raised by the call (including JSON parse
failures of the model's reply, which the source wraps in the same
try/except as the call itself).
-/
import Mathlib

set_option linter.unusedVariables false

namespace CvePatcher

/-! ### SSH client (src/tools/ssh_client.py)

`SSHClient.run` reads stdout and stderr of the remote command, strips
whitespace from both, and returns
`output if output else error or "Command executed successfully."`. -/

/-- Drop leading whitespace characters. -/
def drop_leading_ws : List Char → List Char
  | [] => []
  | c :: rest => if c.isWhitespace then drop_leading_ws rest else c :: rest

/-- Python `str.strip()` with no argument: remove leading and trailing
whitespace. -/
def py_strip (s : String) : String :=
  String.mk ((drop_leading_ws (drop_leading_ws s.data).reverse).reverse)

/-- Result selection of `SSHClient.run`, applied to the raw decoded
stdout and stderr of the completed remote command.  Python truthiness
of a string is non-emptiness. -/
def ssh_run_result (stdout_raw stderr_raw : String) : String :=
  let output := py_strip stdout_raw
  let error := py_strip stderr_raw
  if output ≠ "" then output
  else if error ≠ "" then error
  else "Command executed successfully."

/-! ### Intent classifier (src/agents/intent_classifier.py)

`classify_intent` sends a prompt to the model, strips markdown fences,
parses JSON, and coerces the result with
`result.get("intent", "OTHER").upper()` and `result.get("data", "")`.
The whole body sits in one try/except returning the catch-all
`{"intent": "OTHER", "data": ""}` on any exception.

The model call, fence stripping and `json.loads` are abstracted into one
oracle input `resp : Except String JVal`: `Except.error` covers an
exception raised by `llm.invoke` or a `json.loads` parse failure;
`Except.ok v` is the parsed JSON value. -/

/-- JSON values as produced by Python's `json.loads`. -/
inductive JVal where
  | jstr (s : String)
  | jnum (n : Int)
  | jbool (b : Bool)
  | jnull
  | jarr (xs : List JVal)
  | jobj (fields : List (String × JVal))

/-- Association-list lookup with Python `dict` semantics (keys are
unique in dicts coming from `json.loads`). -/
def dict_lookup {α : Type} (k : String) : List (String × α) → Option α
  | [] => none
  | (k2, v) :: rest => if k2 = k then some v else dict_lookup k rest

/-- Python `value.get(key, default)`: raises (`Except.error`) when the
receiver is not a dict, otherwise returns the stored value or the
default. -/
def py_get (v : JVal) (k : String) (default : JVal) : Except String JVal :=
  match v with
  | JVal.jobj fields => Except.ok ((dict_lookup k fields).getD default)
  | _ => Except.error "AttributeError: object has no attribute get"

/-- Python `value.upper()`: raises when the receiver is not a string. -/
def py_upper (v : JVal) : Except String String :=
  match v with
  | JVal.jstr s => Except.ok s.toUpper
  | _ => Except.error "AttributeError: object has no attribute upper"

/-- Return value of `classify_intent`: `{"intent": ..., "data": ...}`.
`data` is whatever JSON value `result.get("data", "")` produced. -/
structure IntentResult where
  intent : String
  data : JVal

/-- Body of `classify_intent`'s try block, after `json.loads`:
`return ⦃"intent": result.get("intent", "OTHER").upper(), "data": result.get("data", "")⦄`.
Any raised exception propagates as `Except.error`. -/
def classify_intent_body (resp : Except String JVal) : Except String IntentResult := do
  let result ← resp
  let intent0 ← py_get result "intent" (JVal.jstr "OTHER")
  let intent1 ← py_upper intent0
  let data0 ← py_get result "data" (JVal.jstr "")
  return { intent := intent1, data := data0 }

/-- `classify_intent` with its exception behaviour made explicit: the
surrounding try/except turns every exception of the body into the
normal return of the catch-all, so the function's only exit is
`Except.ok`. -/
def classify_intent_exc (resp : Except String JVal) : Except String IntentResult :=
  match classify_intent_body resp with
  | Except.ok r => Except.ok r
  | Except.error _ => Except.ok { intent := "OTHER", data := JVal.jstr "" }

/-- `classify_intent` as the total function the caller observes. -/
def classify_intent (resp : Except String JVal) : IntentResult :=
  match classify_intent_exc resp with
  | Except.ok r => r
  | Except.error _ => { intent := "OTHER", data := JVal.jstr "" }

/-! ### Intent router (src/graph_workflow.py, add_conditional_edges)

The router is `lambda s: s.get("intent")` composed with a fixed dict
from intent label to node name.  The dict has no default entry: a label
outside the table yields no destination node. -/

/-- The dispatch table passed to `add_conditional_edges`. -/
def intent_route_table : List (String × String) :=
  [("LIST_VULNS", "list_vulns"),
   ("ANALYZE_VULN", "analyze_vuln"),
   ("CREATE_JIRA_STORY", "jira_create_node"),
   ("FETCH_JIRA_STORY", "jira_fetch_node"),
   ("UPDATE_JIRA_STORY", "jira_update_node"),
   ("QUERY_GRAPHDB", "gremlin"),
   ("GENERATE_PLAN", "planner"),
   ("PATCH_VULN", "patcher"),
   ("SSH", "ssh"),
   ("HELP", "helper"),
   ("OTHER", "helper")]

/-- Routing: look the classified intent up in the table.  `none` for
the intent models `s.get("intent")` returning `None`; a `none` result
means no destination node exists for the value (the graph library then
fails rather than dispatching). -/
def route_intent (intent : Option String) : Option String :=
  match intent with
  | some i => dict_lookup i intent_route_table
  | none => none

/-! ### Remediation-plan merging (src/agents/add_details.py)

`merge_remediation_plans(existing_plan, user_changes, user_input)` asks
the model for the complete merged plan; whatever JSON object the model
returns is the result.  Only when that call (or the JSON parse of its
reply) raises does the deterministic fallback run:
`merged = existing_plan.copy(); merged.update(user_changes)` followed by
a per-key one-level deep merge over the keys of `user_changes`.

A plan is a JSON object from stage name to stage value; a stage value is
either a nested object (the usual `command`/`description`/... dict) or a
plain string. -/

/-- A stage value of a remediation plan. -/
inductive PVal where
  | str (s : String)
  | obj (fields : List (String × String))
deriving DecidableEq

/-- Python `d[k] = v` on a dict represented as an association list with
unique keys: overwrite in place if present, else append. -/
def dict_set {α : Type} (d : List (String × α)) (k : String) (v : α) : List (String × α) :=
  if (dict_lookup k d).isSome then
    d.map fun kv => if kv.1 = k then (k, v) else kv
  else d ++ [(k, v)]

/-- Python `d.update(u)`: set every key of `u` in `d`, in order. -/
def dict_update {α : Type} (d u : List (String × α)) : List (String × α) :=
  u.foldl (fun acc kv => dict_set acc kv.1 kv.2) d

/-- Python truthiness of an optional dict: `None` and `⦃⦄` are falsy. -/
def opt_truthy {α : Type} : Option (List α) → Bool
  | none => false
  | some l => !l.isEmpty

/-- The deterministic fallback merge (lines 87-94 of add_details.py):
`merged = existing_plan.copy(); merged.update(user_changes)`, then for
each `(key, value)` of `user_changes` whose value is a dict and whose
key maps to a dict in `merged`, `merged[key] = ⦃**merged[key], **value⦄`. -/
def fallback_merge (existing_plan user_changes : List (String × PVal)) : List (String × PVal) :=
  let merged := dict_update existing_plan user_changes
  user_changes.foldl
    (fun merged kv =>
      match kv.2, dict_lookup kv.1 merged with
      | PVal.obj vf, some (PVal.obj mf) => dict_set merged kv.1 (PVal.obj (dict_update mf vf))
      | _, _ => merged)
    merged

/-- `merge_remediation_plans`.  `llm_resp` is the oracle outcome of the
model call plus JSON parse: `Except.ok` carries the complete merged plan
the model returned (used verbatim by the source), `Except.error` a
raised exception, which triggers the fallback.  `user_input` only feeds
the prompt. -/
def merge_remediation_plans (llm_resp : Except String (List (String × PVal)))
    (existing_plan : Option (List (String × PVal)))
    (user_changes : Option (List (String × PVal)))
    (user_input : String) : List (String × PVal) :=
  match llm_resp with
  | Except.ok merged_plan => merged_plan
  | Except.error _ =>
    if opt_truthy user_changes then
      if opt_truthy existing_plan then
        fallback_merge (existing_plan.getD []) (user_changes.getD [])
      else user_changes.getD []
    else if opt_truthy existing_plan then existing_plan.getD []
    else []

/-! ### Step executor (src/tools/patcher_tools.py, execute_and_analyze_step)

`execute_and_analyze_step(step_name, step_config, cve_summary,
csaf_summary, max_retries=2)` runs a `while attempt <= max_retries`
loop.  Each iteration increments `attempt`, runs the command over SSH
and, on success, asks the model whether the output meets expectations;
on an SSH exception it asks the model for a corrected command when
`attempt < max_retries`.  Every iteration appends exactly one entry to
`log_entry["attempts"]` (the source appends the `attempt_log` dict and
keeps mutating the same object afterwards; the embedding appends the
finished record, which is observationally identical because every
mutation precedes the next return or recursive step).

External calls are an oracle indexed by the 1-based attempt number:
`ssh` is the outcome of `ssh.run` (`Except.error` = raised exception,
whose payload is `str(e)`), `analysis` the outcome of the model's
output analysis including its JSON parse, `resolution` the outcome of
the model's command-correction call including its JSON parse.

Python truthiness of the analysis dict's fields is made explicit in
`Analysis`: a missing or falsy `success`/`needs_retry` is `false`, a
missing or empty `updated_command` is `""`. -/

/-- Parsed model analysis of a command's output (the JSON dict
`⦃"success": ..., "needs_retry": ..., "updated_command": ..., "reason": ...⦄`),
with Python truthiness of each field pre-applied. -/
structure Analysis where
  success : Bool := false
  needs_retry : Bool := false
  updated_command : String := ""
  reason : String := ""
deriving DecidableEq

/-- Parsed model resolution of a failed command (the JSON dict
`⦃"updated_command": ..., "reason": ...⦄`); `updated_command = none`
models a missing key, for which the source keeps the current command. -/
structure Resolution where
  updated_command : Option String := none
  reason : String := ""
deriving DecidableEq

/-- Oracle for one loop iteration: outcomes of the external calls the
iteration may make. -/
structure AttemptOracle where
  ssh : Except String String
  analysis : Except String Analysis
  resolution : Except String Resolution

/-- One entry of `log_entry["attempts"]`. -/
structure AttemptLog where
  attempt : Nat
  command : String
  output : Option String := none
  status : Option String := none
  error : Option String := none
  llm_analysis : Option Analysis := none
  analysis_reason : Option String := none
  analysis : Option String := none
  llm_analysis_error : Option String := none
  llm_resolution : Option Resolution := none
  resolution : Option String := none
  llm_resolution_error : Option String := none
deriving DecidableEq

/-- The per-step log `log_entry`. -/
structure LogEntry where
  step : String
  command : String
  description : String
  status : String
  attempts : List AttemptLog
  output : Option String := none
  error : Option String := none
  analysis : Option String := none
deriving DecidableEq

/-- Return value of `execute_and_analyze_step`. -/
structure StepResult where
  success : Bool
  log : LogEntry
  output : Option String := none
  error : Option String := none
deriving DecidableEq

/-- The retry loop.  `attempt` is the pre-increment counter of the
source; `fuel` carries the value `max_retries + 1 - attempt` so that
the loop condition `attempt <= max_retries` of the source is exactly
`fuel ≠ 0` (established by `execute_and_analyze_step`, which starts the
loop at `attempt = 0` with `fuel = max_retries + 1`, and preserved
because each recursive step decrements `fuel` while incrementing
`attempt`).  The `fuel = 0` branch is the trailing
`return ⦃"success": False, ..., "error": "Max retries exceeded"⦄`
after the loop. -/
def execLoop (oracle : Nat → AttemptOracle) (max_retries : Nat) :
    Nat → Nat → String → LogEntry → StepResult
  | 0, _, _, log_entry =>
    { success := false,
      log := { log_entry with status := "error" },
      error := some "Max retries exceeded" }
  | fuel + 1, attempt, current_command, log_entry =>
    let a := attempt + 1
    let w := oracle a
    match w.ssh with
    | Except.ok output =>
      let attempt_log : AttemptLog :=
        { attempt := a, command := current_command,
          output := some output, status := some "success" }
      match w.analysis with
      | Except.ok an =>
        let attempt_log :=
          { attempt_log with llm_analysis := some an, analysis_reason := some an.reason }
        if an.success ∧ ¬an.needs_retry then
          { success := true,
            log := { log_entry with
                       status := "success", output := some output,
                       attempts := log_entry.attempts ++ [attempt_log] },
            output := some output }
        else if an.needs_retry ∧ an.updated_command ≠ "" ∧ a < max_retries then
          execLoop oracle max_retries fuel a an.updated_command
            { log_entry with
              attempts := log_entry.attempts ++ [{ attempt_log with analysis := some an.reason }] }
        else
          let attempt_log := { attempt_log with analysis := some an.reason }
          { success := an.success,
            log := { log_entry with
                     attempts := log_entry.attempts ++ [attempt_log],
                     status := if an.success then "partial_success" else "error",
                     output := some output,
                     analysis := some an.reason },
            output := some output }
      | Except.error analysis_err =>
        -- analysis failed: assume success since the command executed
        let attempt_log := { attempt_log with llm_analysis_error := some analysis_err }
        { success := true,
          log := { log_entry with
                     status := "success", output := some output,
                     attempts := log_entry.attempts ++ [attempt_log] },
          output := some output }
    | Except.error e =>
      let attempt_log : AttemptLog :=
        { attempt := a, command := current_command,
          error := some e, status := some "error" }
      if a < max_retries then
        match w.resolution with
        | Except.ok r =>
          let attempt_log :=
            { attempt_log with llm_resolution := some r, resolution := some r.reason }
          execLoop oracle max_retries fuel a (r.updated_command.getD current_command)
            { log_entry with attempts := log_entry.attempts ++ [attempt_log] }
        | Except.error resolution_err =>
          let attempt_log := { attempt_log with llm_resolution_error := some resolution_err }
          { success := false,
            log := { log_entry with
                       attempts := log_entry.attempts ++ [attempt_log],
                       status := "error", error := some e },
            error := some e }
      else
        { success := false,
          log := { log_entry with
                     attempts := log_entry.attempts ++ [attempt_log],
                     status := "error", error := some e },
          error := some e }

/-- `step_config` as read by the executor: four `dict.get` calls. -/
structure StepConfig where
  command : Option String := none
  description : Option String := none
  expected : Option String := none
  expected_result : Option String := none
deriving DecidableEq

/-- `execute_and_analyze_step`.  The source's default retry budget is
`max_retries = 2`; call sites here always pass it explicitly.
`cve_summary` and `csaf_summary` only feed prompt text, which the
oracle absorbs. -/
def execute_and_analyze_step (oracle : Nat → AttemptOracle) (step_name : String)
    (step_config : StepConfig) (cve_summary csaf_summary : String)
    (max_retries : Nat) : StepResult :=
  let command := step_config.command.getD ""
  let description := step_config.description.getD ""
  let log_entry : LogEntry :=
    { step := step_name, command := command, description := description,
      status := "pending", attempts := [] }
  execLoop oracle max_retries (max_retries + 1) 0 command log_entry

/-! ### Patch handler (src/tools/patcher_tools.py, patcher_node)

`patcher_node(state)` takes the plan from the state, falling back to
`resources/plan.json` (whose loading sits in a try/except, so a missing
or unreadable file just leaves the plan absent).  Without a plan it
returns the guided message.  With one it runs every pre-check and the
three main steps through `execute_and_analyze_step` (always with the
default `max_retries = 2`), collects logs, errors and a report, renders
the report and returns the update dict
`⦃output, patcher_logs, patcher_errors, current_step⦄`.

The graph merges a handler's returned dict into the conversation state
key by key; `apply_update` models that merge, so a key the handler does
not return leaves the corresponding state field untouched. -/

/-- A remediation plan as the patch handler reads it: `pre_checks` is a
dict of named checks; the three main sections are single step configs.
An absent plan (`None`) and Python's falsy empty plan dict are both
modelled as `none` at the use sites. -/
structure PPlan where
  pre_checks : List (String × StepConfig) := []
  check_packages : Option StepConfig := none
  apply_remediation : Option StepConfig := none
  verify_fix : Option StepConfig := none
deriving DecidableEq

/-- An entry of `patcher_errors`. -/
structure PatchError where
  step : String
  error : String
  suggestion : String
  reasoning : String
deriving DecidableEq

/-- An entry of the point-wise report list. -/
structure ReportItem where
  step : String
  command : Option String
  output : String
  status : String
  attempts : Option Nat := none
deriving DecidableEq

/-- The conversation state (src/state.py's `GraphState`, plus the
`current_step` channel the handlers write).  Payloads irrelevant to the
claims are modelled as strings. -/
structure GraphState where
  user_input : String := ""
  intent : String := ""
  intent_data : Option String := none
  command : String := ""
  output : String := ""
  vuln_data : Option String := none
  rhsa_id : Option String := none
  cve_data : Option String := none
  csaf_data : Option String := none
  cve_summary : Option String := none
  csaf_summary : Option String := none
  jira_issues : Option (List (String × String)) := none
  remediation_plan : Option PPlan := none
  patcher_logs : Option (List LogEntry) := none
  patcher_errors : Option (List PatchError) := none
  current_step : Option Nat := none
deriving DecidableEq

/-- The dict a handler returns: only the keys it sets. -/
structure StateUpdate where
  output : Option String := none
  patcher_logs : Option (List LogEntry) := none
  patcher_errors : Option (List PatchError) := none
  current_step : Option Nat := none
deriving DecidableEq

/-- Merge a handler's returned dict into the state, key by key. -/
def apply_update (s : GraphState) (u : StateUpdate) : GraphState :=
  { s with
      output := u.output.getD s.output,
      patcher_logs := match u.patcher_logs with
        | some v => some v
        | none => s.patcher_logs,
      patcher_errors := match u.patcher_errors with
        | some v => some v
        | none => s.patcher_errors,
      current_step := match u.current_step with
        | some v => some v
        | none => s.current_step }

/-- Render of `Option String` inside a Python f-string
(`None` prints as "None"). -/
def opt_str : Option String → String
  | some s => s
  | none => "None"

/-- Python `pattern in s` for strings. -/
def str_contains (s pat : String) : Bool :=
  (s.splitOn pat).length > 1

/-- Python `str.title()`: the first letter of every alphabetic run is
upper-cased, the rest lower-cased. -/
def py_title (s : String) : String :=
  (s.foldl
    (fun acc c =>
      if c.isAlpha then
        (acc.1.push (if acc.2 then c.toLower else c.toUpper), true)
      else (acc.1.push c, false))
    ("", false)).1

/-- One numbered item of the report (lines 213-219 of the source). -/
def format_report_item (idx : Nat) (item : ReportItem) : String :=
  toString idx ++ ". **" ++ item.step ++ "**\n"
    ++ "   - Command: `" ++ opt_str item.command ++ "`\n"
    ++ "   - Status: " ++ item.status ++ "\n"
    ++ (if item.attempts.getD 1 > 1 then
          "   - Attempts: " ++ toString (item.attempts.getD 1) ++ "\n"
        else "")
    ++ "   - SSH Output:\n```\n" ++ item.output ++ "\n```\n\n"

/-- Render the execution report (lines 212-225 of the source). -/
def build_report (report : List ReportItem) (patcher_errors : List PatchError) : String :=
  let items := (report.enum.map fun p => format_report_item (p.1 + 1) p.2)
  let body := String.join items
  let errors_part :=
    if !patcher_errors.isEmpty then
      "## Errors and Resolutions\n\n"
        ++ String.join (patcher_errors.map fun e =>
             "- **" ++ e.step ++ "**: " ++ e.error ++ "\n"
               ++ "  - Suggestion: " ++ e.suggestion ++ "\n\n")
    else ""
  "# Vulnerability Patching Execution Report\n\n" ++ body ++ errors_part

/-- `patcher_node`.  `oracle` gives, per executed step name and attempt
number, the outcomes of that attempt's external calls; `plan_file` is
the outcome of the `resources/plan.json` fallback (`none`: the file is
missing or failed to load). -/
def patcher_node (oracle : String → Nat → AttemptOracle) (plan_file : Option PPlan)
    (state : GraphState) : StateUpdate :=
  let plan : Option PPlan :=
    match state.remediation_plan with
    | some p => some p
    | none => plan_file
  match plan with
  | none => { output := some "No remediation plan found. Please generate a plan first." }
  | some plan =>
    let cve_summary := state.cve_summary.getD ""
    let csaf_summary := state.csaf_summary.getD ""
    -- pre-checks (current_step is set to 5 before this loop)
    let pre : List LogEntry × List PatchError × List ReportItem :=
      plan.pre_checks.foldl
        (fun acc ckv =>
          let check_name := ckv.1
          let check_config := ckv.2
          let result := execute_and_analyze_step (oracle ("pre_check_" ++ check_name))
            ("pre_check_" ++ check_name) check_config cve_summary csaf_summary 2
          let logs := acc.1 ++ [result.log]
          let report := acc.2.2 ++
            [{ step := "Pre-check: " ++ check_name,
               command := check_config.command,
               output := result.output.getD "",
               status := result.log.status }]
          let errors :=
            if !result.success then
              acc.2.1 ++
                [{ step := "pre_check_" ++ check_name,
                   error := result.error.getD "Pre-check failed",
                   suggestion := "Review system requirements and environment configuration.",
                   reasoning := "Pre-check validation failed. Ensure system meets requirements." }]
            else acc.2.1
          (logs, errors, report))
        ([], [], [])
    -- main steps
    let steps : List (String × StepConfig) :=
      [("check_packages", plan.check_packages.getD {}),
       ("apply_remediation", plan.apply_remediation.getD {}),
       ("verify_fix", plan.verify_fix.getD {})]
    let main : List LogEntry × List PatchError × List ReportItem × Nat :=
      steps.foldl
        (fun acc sp =>
          let step_name := sp.1
          let step_config := sp.2
          -- `if step_config.get("command"):` — truthy iff present and non-empty
          if step_config.command.getD "" ≠ "" then
            let cur :=
              if step_name = "check_packages" ∨ step_name = "apply_remediation" then 6
              else if step_name = "verify_fix" then 7
              else acc.2.2.2
            let result := execute_and_analyze_step (oracle step_name) step_name step_config
              cve_summary csaf_summary 2
            let final_command :=
              match result.log.attempts.getLast? with
              | some al => al.command
              | none => step_config.command.getD ""
            let logs := acc.1 ++ [result.log]
            let report := acc.2.2.1 ++
              [{ step := py_title (step_name.replace "_" " "),
                 command := some final_command,
                 output := result.output.getD "",
                 status := result.log.status,
                 attempts := some result.log.attempts.length }]
            let errors :=
              if !result.success then
                acc.2.1 ++
                  [{ step := step_name,
                     error := result.error.getD "Step failed",
                     suggestion := result.log.analysis.getD "Review command and system state.",
                     reasoning := "Step execution failed after retries." }]
              else acc.2.1
            (logs, errors, report, cur)
          else acc)
        (pre.1, pre.2.1, pre.2.2, 5)
    let output_text := build_report main.2.2.1 main.2.1
    let current_step :=
      if str_contains output_text "Execution Report" then
        if main.2.1.isEmpty then 9 else 8
      else main.2.2.2
    { output := some output_text,
      patcher_logs := some main.1,
      patcher_errors := some main.2.1,
      current_step := some current_step }

/-! ## Claims -/

/-- Claim C9: for every command, `SSHClient.run` returns a non-empty
string: the (stripped) stdout if non-empty, otherwise the (stripped)
stderr if non-empty, otherwise the fixed fallback text
"Command executed successfully." — callers never observe an empty
result from a completed remote command. -/
theorem C9_ssh_run_never_empty (stdout_raw stderr_raw : String) :
    ssh_run_result stdout_raw stderr_raw ≠ "" ∧
    (py_strip stdout_raw ≠ "" → ssh_run_result stdout_raw stderr_raw = py_strip stdout_raw) ∧
    (py_strip stdout_raw = "" → py_strip stderr_raw ≠ "" →
      ssh_run_result stdout_raw stderr_raw = py_strip stderr_raw) ∧
    (py_strip stdout_raw = "" → py_strip stderr_raw = "" →
      ssh_run_result stdout_raw stderr_raw = "Command executed successfully.") := by
  unfold ssh_run_result
  by_cases h1 : py_strip stdout_raw = "" <;> by_cases h2 : py_strip stderr_raw = "" <;>
    simp [h1, h2]

/-- Claim C9 witness: a command whose stdout strips to empty and whose
stderr strips to "err" yields "err". -/
theorem C9_witness : ssh_run_result "  " " err " = "err" :=
  (C9_ssh_run_never_empty "  " " err ").2.2.1 (by decide) (by decide)

/-- Claim C3: `classify_intent` never raises to its caller (its
explicit-exception form always returns `Except.ok`), and whenever the
model response cannot be parsed into the expected JSON shape — a
malformed reply or any exception during invocation or parsing, i.e.
any failure of the try-block body — it returns exactly the catch-all
`⦃"intent": "OTHER", "data": ""⦄`. -/
theorem C3_classifier_fails_soft (resp : Except String JVal) :
    (∃ r, classify_intent_exc resp = Except.ok r) ∧
    (∀ e, classify_intent_body resp = Except.error e →
      classify_intent_exc resp = Except.ok { intent := "OTHER", data := JVal.jstr "" }) := by
  constructor
  · unfold classify_intent_exc
    cases h : classify_intent_body resp with
    | ok r => exact ⟨r, rfl⟩
    | error e => exact ⟨{ intent := "OTHER", data := JVal.jstr "" }, rfl⟩
  · intro e he
    unfold classify_intent_exc
    rw [he]

/-- Claim C3 witness: a failed model invocation yields the catch-all. -/
theorem C3_witness :
    classify_intent_exc (Except.error "invoke failed") =
      Except.ok { intent := "OTHER", data := JVal.jstr "" } :=
  (C3_classifier_fails_soft (Except.error "invoke failed")).2 "invoke failed" rfl

/-- Lookup misses every association list none of whose keys is the
searched key. -/
theorem dict_lookup_eq_none {α : Type} (k : String) (l : List (String × α))
    (h : ∀ p ∈ l, p.1 ≠ k) : dict_lookup k l = none := by
  induction l with
  | nil => rfl
  | cons p rest ih =>
    unfold dict_lookup
    rw [if_neg (h p (List.mem_cons_self p rest))]
    exact ih fun q hq => h q (List.mem_cons_of_mem p hq)

/-- Claim C7 counterexample: an intent value outside the recognized
labels is not routed to the help handler — it has no destination at
all, so the claimed fallback does not exist. -/
theorem C7_counterexample :
    ¬ route_intent (some "UNRECOGNIZED_INTENT") = some "helper" := by decide

/-- Claim C7 (amended): the router is a pure table lookup from the
classified intent to a handler node; the catch-all label OTHER (and
HELP) route to the help handler, but an intent value outside the
eleven recognized labels has no table entry and is routed to no
handler (there is no default edge — the fallback to OTHER lives in
the classifier, not the router). -/
theorem C7_router_no_default (s : String)
    (h : s ∉ ["LIST_VULNS", "ANALYZE_VULN", "CREATE_JIRA_STORY", "FETCH_JIRA_STORY",
              "UPDATE_JIRA_STORY", "QUERY_GRAPHDB", "GENERATE_PLAN", "PATCH_VULN",
              "SSH", "HELP", "OTHER"]) :
    route_intent (some s) = none ∧
    route_intent (some "OTHER") = some "helper" ∧
    route_intent (some "HELP") = some "helper" ∧
    route_intent (some "PATCH_VULN") = some "patcher" ∧
    route_intent none = none := by
  refine ⟨?_, rfl, rfl, rfl, rfl⟩
  show dict_lookup s intent_route_table = none
  apply dict_lookup_eq_none
  intro p hp
  fin_cases hp <;> simp_all [eq_comm]

/-- Claim C7 witness: the label FOO is unrecognized and gets no
destination node. -/
theorem C7_witness : route_intent (some "FOO") = none :=
  (C7_router_no_default "FOO" (by decide)).1

/-- Claim C8: with no remediation plan in the conversation state and no
loadable plan file, `patcher_node` returns only the guided message
telling the user to generate a plan first, and merging that update into
the state changes nothing but the output field. -/
theorem C8_no_plan_guided_message (oracle : String → Nat → AttemptOracle)
    (plan_file : Option PPlan) (state : GraphState)
    (h1 : state.remediation_plan = none) (h2 : plan_file = none) :
    patcher_node oracle plan_file state =
      { output := some "No remediation plan found. Please generate a plan first." } ∧
    apply_update state (patcher_node oracle plan_file state) =
      { state with output := "No remediation plan found. Please generate a plan first." } := by
  have hu : patcher_node oracle plan_file state =
      { output := some "No remediation plan found. Please generate a plan first." } := by
    unfold patcher_node
    rw [h1, h2]
  exact ⟨hu, by rw [hu]; rfl⟩

/-- Oracle whose external calls all fail; `patcher_node` must not need
it on the no-plan path. -/
def unused_oracle : String → Nat → AttemptOracle :=
  fun _ _ =>
    { ssh := Except.error "unused", analysis := Except.error "unused",
      resolution := Except.error "unused" }

/-- Claim C8 witness: the empty conversation state with no plan file. -/
theorem C8_witness :
    patcher_node unused_oracle none {} =
      { output := some "No remediation plan found. Please generate a plan first." } ∧
    apply_update {} (patcher_node unused_oracle none {}) =
      { ({} : GraphState) with
          output := "No remediation plan found. Please generate a plan first." } :=
  C8_no_plan_guided_message unused_oracle none {} rfl rfl

/-- Claim C4: a step whose command executes without error on the first
attempt and whose model analysis judges the output successful with no
retry needed returns success with log status "success" after exactly
one recorded attempt. -/
theorem C4_immediate_success (oracle : Nat → AttemptOracle) (step_name : String)
    (step_config : StepConfig) (cve_summary csaf_summary : String) (max_retries : Nat)
    (out : String) (an : Analysis)
    (hssh : (oracle 1).ssh = Except.ok out)
    (han : (oracle 1).analysis = Except.ok an)
    (hs : an.success = true) (hnr : an.needs_retry = false) :
    (execute_and_analyze_step oracle step_name step_config cve_summary csaf_summary
        max_retries).success = true ∧
    (execute_and_analyze_step oracle step_name step_config cve_summary csaf_summary
        max_retries).log.status = "success" ∧
    (execute_and_analyze_step oracle step_name step_config cve_summary csaf_summary
        max_retries).log.attempts.length = 1 ∧
    (execute_and_analyze_step oracle step_name step_config cve_summary csaf_summary
        max_retries).output = some out := by
  simp [execute_and_analyze_step, execLoop, hssh, han, hs, hnr]

/-- Oracle of a command that succeeds at once and whose analysis
confirms success. -/
def immediate_success_oracle : Nat → AttemptOracle :=
  fun _ =>
    { ssh := Except.ok "python3-setuptools-53.0.0 is installed",
      analysis := Except.ok
        { success := true, needs_retry := false, updated_command := "",
          reason := "output meets expectations" },
      resolution := Except.error "unused" }

/-- Claim C4 witness: a concrete always-succeeding command under the
default retry budget. -/
theorem C4_witness :
    (execute_and_analyze_step immediate_success_oracle "check_packages"
        { command := some "rpm -q python3-setuptools" } "" "" 2).success = true ∧
    (execute_and_analyze_step immediate_success_oracle "check_packages"
        { command := some "rpm -q python3-setuptools" } "" "" 2).log.status = "success" ∧
    (execute_and_analyze_step immediate_success_oracle "check_packages"
        { command := some "rpm -q python3-setuptools" } "" "" 2).log.attempts.length = 1 ∧
    (execute_and_analyze_step immediate_success_oracle "check_packages"
        { command := some "rpm -q python3-setuptools" } "" "" 2).output =
      some "python3-setuptools-53.0.0 is installed" :=
  C4_immediate_success immediate_success_oracle "check_packages"
    { command := some "rpm -q python3-setuptools" } "" "" 2
    "python3-setuptools-53.0.0 is installed"
    { success := true, needs_retry := false, updated_command := "",
      reason := "output meets expectations" }
    rfl rfl rfl rfl

/-- Claim C5: when the command executes without an execution error but
the model's success analysis is ambiguous (the analysis call or its
JSON parse raises), the executor treats the execution as successful:
success with log status "success", without retrying (one recorded
attempt) and without erroring. -/
theorem C5_ambiguous_analysis_success (oracle : Nat → AttemptOracle) (step_name : String)
    (step_config : StepConfig) (cve_summary csaf_summary : String) (max_retries : Nat)
    (out analysis_err : String)
    (hssh : (oracle 1).ssh = Except.ok out)
    (han : (oracle 1).analysis = Except.error analysis_err) :
    (execute_and_analyze_step oracle step_name step_config cve_summary csaf_summary
        max_retries).success = true ∧
    (execute_and_analyze_step oracle step_name step_config cve_summary csaf_summary
        max_retries).log.status = "success" ∧
    (execute_and_analyze_step oracle step_name step_config cve_summary csaf_summary
        max_retries).log.attempts.length = 1 ∧
    (execute_and_analyze_step oracle step_name step_config cve_summary csaf_summary
        max_retries).error = none := by
  simp [execute_and_analyze_step, execLoop, hssh, han]

/-- Oracle of a command that executes fine while the model's analysis
reply fails to parse. -/
def ambiguous_analysis_oracle : Nat → AttemptOracle :=
  fun _ =>
    { ssh := Except.ok "update complete",
      analysis := Except.error "Expecting value: line 1 column 1 (char 0)",
      resolution := Except.error "unused" }

/-- Claim C5 witness: a concrete run with unparseable analysis output. -/
theorem C5_witness :
    (execute_and_analyze_step ambiguous_analysis_oracle "apply_remediation"
        { command := some "dnf update -y python3-setuptools" } "" "" 2).success = true ∧
    (execute_and_analyze_step ambiguous_analysis_oracle "apply_remediation"
        { command := some "dnf update -y python3-setuptools" } "" "" 2).log.status = "success" ∧
    (execute_and_analyze_step ambiguous_analysis_oracle "apply_remediation"
        { command := some "dnf update -y python3-setuptools" } "" "" 2).log.attempts.length = 1 ∧
    (execute_and_analyze_step ambiguous_analysis_oracle "apply_remediation"
        { command := some "dnf update -y python3-setuptools" } "" "" 2).error = none :=
  C5_ambiguous_analysis_success ambiguous_analysis_oracle "apply_remediation"
    { command := some "dnf update -y python3-setuptools" } "" "" 2
    "update complete" "Expecting value: line 1 column 1 (char 0)" rfl rfl

/-- Under an oracle whose command raises on every attempt and whose
resolution calls all succeed, every loop entry with `attempt <
max_retries` iterations left ends in failure, recording exactly
`max_retries - attempt` further attempts. -/
theorem execLoop_all_fail (oracle : Nat → AttemptOracle) (max_retries : Nat)
    (hssh : ∀ a, ∃ e, (oracle a).ssh = Except.error e)
    (hres : ∀ a, ∃ r, (oracle a).resolution = Except.ok r) :
    ∀ fuel attempt current_command log_entry, attempt < max_retries →
      max_retries ≤ fuel + attempt →
      (execLoop oracle max_retries fuel attempt current_command log_entry).success = false ∧
      (execLoop oracle max_retries fuel attempt current_command log_entry).log.status
        = "error" ∧
      (execLoop oracle max_retries fuel attempt current_command log_entry).log.attempts.length
        = log_entry.attempts.length + (max_retries - attempt) := by
  intro fuel
  induction fuel with
  | zero =>
    intro attempt current_command log_entry h1 h2
    exact absurd h1 (by omega)
  | succ f ih =>
    intro attempt current_command log_entry h1 h2
    obtain ⟨e, he⟩ := hssh (attempt + 1)
    obtain ⟨r, hr⟩ := hres (attempt + 1)
    by_cases hlt : attempt + 1 < max_retries
    · have := ih (attempt + 1)
        (r.updated_command.getD current_command)
        { log_entry with
            attempts := log_entry.attempts ++
              [{ attempt := attempt + 1, command := current_command,
                 error := some e, status := some "error",
                 llm_resolution := some r, resolution := some r.reason }] }
        hlt (by omega)
      simp only [execLoop, he, hr, if_pos hlt]
      refine ⟨this.1, this.2.1, ?_⟩
      rw [this.2.2]
      simp
      omega
    · simp only [execLoop, he, if_neg hlt]
      refine ⟨trivial, trivial, ?_⟩
      simp
      omega

/-- Claim C1 (amended): with the default retry budget `max_retries = 2`,
a step whose command raises an execution error on every attempt (with
the model supplying a corrected command after each failure) returns
success = false with log status "error" after exactly `max_retries`
recorded attempts — not `max_retries + 1`: both retry guards compare
the already-incremented attempt counter against `max_retries`
strictly, so the final allowed iteration of the `while` loop is never
reached on the failure path. -/
theorem C1_all_fail_max_retries_attempts (oracle : Nat → AttemptOracle) (step_name : String)
    (step_config : StepConfig) (cve_summary csaf_summary : String) (max_retries : Nat)
    (hmr : 1 ≤ max_retries)
    (hssh : ∀ a, ∃ e, (oracle a).ssh = Except.error e)
    (hres : ∀ a, ∃ r, (oracle a).resolution = Except.ok r) :
    (execute_and_analyze_step oracle step_name step_config cve_summary csaf_summary
        max_retries).success = false ∧
    (execute_and_analyze_step oracle step_name step_config cve_summary csaf_summary
        max_retries).log.status = "error" ∧
    (execute_and_analyze_step oracle step_name step_config cve_summary csaf_summary
        max_retries).log.attempts.length = max_retries := by
  have h := execLoop_all_fail oracle max_retries hssh hres (max_retries + 1) 0
    (step_config.command.getD "")
    { step := step_name, command := step_config.command.getD "",
      description := step_config.description.getD "", status := "pending", attempts := [] }
    (by omega) (by omega)
  exact ⟨h.1, h.2.1, by rw [execute_and_analyze_step]; rw [h.2.2]; simp⟩

/-- Oracle of a command that raises on every attempt, with the model
supplying a corrected command after each failure. -/
def always_fail_oracle : Nat → AttemptOracle :=
  fun _ =>
    { ssh := Except.error "bash: setuptols: command not found",
      analysis := Except.error "unused",
      resolution := Except.ok
        { updated_command := some "dnf update -y python3-setuptools",
          reason := "fix the package name" } }

/-- Claim C1 counterexample: with the default budget `max_retries = 2`
and a command failing on every attempt, the executor does record the
"error" outcome — but after 2 attempts, not the claimed
`max_retries + 1 = 3`. -/
theorem C1_counterexample :
    ¬ ((execute_and_analyze_step always_fail_oracle "apply_remediation"
          { command := some "setuptols --upgrade" } "" "" 2).success = false ∧
       (execute_and_analyze_step always_fail_oracle "apply_remediation"
          { command := some "setuptols --upgrade" } "" "" 2).log.status = "error" ∧
       (execute_and_analyze_step always_fail_oracle "apply_remediation"
          { command := some "setuptols --upgrade" } "" "" 2).log.attempts.length = 2 + 1) := by
  decide

/-- Claim C1 witness: the same always-failing run, through the amended
theorem: default budget 2, exactly 2 recorded attempts. -/
theorem C1_witness :
    (execute_and_analyze_step always_fail_oracle "apply_remediation"
        { command := some "setuptols --upgrade" } "" "" 2).success = false ∧
    (execute_and_analyze_step always_fail_oracle "apply_remediation"
        { command := some "setuptols --upgrade" } "" "" 2).log.status = "error" ∧
    (execute_and_analyze_step always_fail_oracle "apply_remediation"
        { command := some "setuptols --upgrade" } "" "" 2).log.attempts.length = 2 :=
  C1_all_fail_max_retries_attempts always_fail_oracle "apply_remediation"
    { command := some "setuptols --upgrade" } "" "" 2 (by omega)
    (fun _ => ⟨"bash: setuptols: command not found", rfl⟩)
    (fun _ => ⟨{ updated_command := some "dnf update -y python3-setuptools",
                 reason := "fix the package name" }, rfl⟩)

/-- Oracle of a command that raises on attempts 1 and 2 (the model
supplying a corrected command each time) and succeeds from attempt 3
on, with the analysis confirming success. -/
def fail_twice_oracle : Nat → AttemptOracle :=
  fun a =>
    if a ≤ 2 then
      { ssh := Except.error "dnf: lock held by another process",
        analysis := Except.error "unused",
        resolution := Except.ok
          { updated_command := some "dnf update -y python3-setuptools",
            reason := "retry after releasing the lock" } }
    else
      { ssh := Except.ok "Upgraded python3-setuptools",
        analysis := Except.ok
          { success := true, needs_retry := false, updated_command := "",
            reason := "package upgraded" },
        resolution := Except.error "unused" }

/-- Claim C2 counterexample: with the default budget `max_retries = 2`,
a command that fails twice and would succeed on the third attempt is
never given that attempt: the failure-path retry guard
`attempt < max_retries` stops after the second failure, so the run ends
with success = false and only 2 recorded attempts, not success with 3. -/
theorem C2_counterexample :
    ¬ ((execute_and_analyze_step fail_twice_oracle "apply_remediation"
          { command := some "dnf update python3-setuptools" } "" "" 2).success = true ∧
       (execute_and_analyze_step fail_twice_oracle "apply_remediation"
          { command := some "dnf update python3-setuptools" } "" "" 2).log.attempts.length
         = 3) := by
  decide

/-- Claim C2 (amended): a retry budget of `max_retries = 3` (not the
default 2) lets a command that fails on its first two attempts and then
succeeds (the model supplying a corrected command after each failure
and judging the final output successful) return success = true with
exactly three recorded attempts. -/
theorem C2_fail_twice_then_succeed (oracle : Nat → AttemptOracle) (step_name : String)
    (step_config : StepConfig) (cve_summary csaf_summary : String)
    (e1 e2 out : String) (r1 r2 : Resolution) (an : Analysis)
    (h1 : (oracle 1).ssh = Except.error e1) (h2 : (oracle 1).resolution = Except.ok r1)
    (h3 : (oracle 2).ssh = Except.error e2) (h4 : (oracle 2).resolution = Except.ok r2)
    (h5 : (oracle 3).ssh = Except.ok out) (h6 : (oracle 3).analysis = Except.ok an)
    (h7 : an.success = true) (h8 : an.needs_retry = false) :
    (execute_and_analyze_step oracle step_name step_config cve_summary csaf_summary
        3).success = true ∧
    (execute_and_analyze_step oracle step_name step_config cve_summary csaf_summary
        3).log.status = "success" ∧
    (execute_and_analyze_step oracle step_name step_config cve_summary csaf_summary
        3).log.attempts.length = 3 := by
  simp [execute_and_analyze_step, execLoop, h1, h2, h3, h4, h5, h6, h7, h8]

/-- Claim C2 witness: the concrete fail-fail-succeed run with budget 3. -/
theorem C2_witness :
    (execute_and_analyze_step fail_twice_oracle "apply_remediation"
        { command := some "dnf update python3-setuptools" } "" "" 3).success = true ∧
    (execute_and_analyze_step fail_twice_oracle "apply_remediation"
        { command := some "dnf update python3-setuptools" } "" "" 3).log.status = "success" ∧
    (execute_and_analyze_step fail_twice_oracle "apply_remediation"
        { command := some "dnf update python3-setuptools" } "" "" 3).log.attempts.length = 3 :=
  C2_fail_twice_then_succeed fail_twice_oracle "apply_remediation"
    { command := some "dnf update python3-setuptools" } "" ""
    "dnf: lock held by another process" "dnf: lock held by another process"
    "Upgraded python3-setuptools"
    { updated_command := some "dnf update -y python3-setuptools",
      reason := "retry after releasing the lock" }
    { updated_command := some "dnf update -y python3-setuptools",
      reason := "retry after releasing the lock" }
    { success := true, needs_retry := false, updated_command := "",
      reason := "package upgraded" }
    rfl rfl rfl rfl rfl rfl rfl rfl

/-- Every loop iteration appends at most one attempt record and both
retry guards require the incremented counter to stay strictly below
`max_retries`, so from a state with `attempt < max_retries` at most
`max_retries - attempt` further attempts are recorded. -/
theorem execLoop_attempts_le (oracle : Nat → AttemptOracle) (max_retries : Nat) :
    ∀ fuel attempt current_command log_entry, attempt < max_retries →
      (execLoop oracle max_retries fuel attempt current_command log_entry).log.attempts.length
        ≤ log_entry.attempts.length + (max_retries - attempt) := by
  intro fuel
  induction fuel with
  | zero =>
    intro attempt current_command log_entry h
    simp [execLoop]
  | succ f ih =>
    intro attempt current_command log_entry h
    simp only [execLoop]
    cases hssh : (oracle (attempt + 1)).ssh with
    | ok output =>
      dsimp only
      cases han : (oracle (attempt + 1)).analysis with
      | ok an =>
        dsimp only
        by_cases hc1 : an.success = true ∧ ¬an.needs_retry = true
        · simp only [if_pos hc1]
          simp
          omega
        · simp only [if_neg hc1]
          by_cases hc2 : an.needs_retry = true ∧ an.updated_command ≠ "" ∧
              attempt + 1 < max_retries
          · simp only [if_pos hc2]
            refine le_trans (ih (attempt + 1) _ _ hc2.2.2) ?_
            simp
            omega
          · simp only [if_neg hc2]
            simp
            omega
      | error analysis_err =>
        simp
        omega
    | error e =>
      dsimp only
      by_cases hlt : attempt + 1 < max_retries
      · simp only [if_pos hlt]
        cases hres : (oracle (attempt + 1)).resolution with
        | ok r =>
          refine le_trans (ih (attempt + 1) _ _ hlt) ?_
          simp
          omega
        | error resolution_err =>
          simp
          omega
      · simp only [if_neg hlt]
        simp
        omega

/-- Extra fuel beyond `max_retries + 1 - attempt` is never consumed:
from any state the loop can actually be in, the result does not depend
on it, i.e. the loop always returns from one of its in-loop returns and
the trailing "Max retries exceeded" return is unreachable. -/
theorem execLoop_fuel_irrelevant (oracle : Nat → AttemptOracle) (max_retries : Nat) :
    ∀ fuel extra attempt current_command log_entry, attempt < max_retries →
      max_retries ≤ fuel + attempt →
      execLoop oracle max_retries (fuel + extra) attempt current_command log_entry
        = execLoop oracle max_retries fuel attempt current_command log_entry := by
  intro fuel
  induction fuel with
  | zero =>
    intro extra attempt current_command log_entry h1 h2
    exact absurd h1 (by omega)
  | succ f ih =>
    intro extra attempt current_command log_entry h1 h2
    have he : f + 1 + extra = (f + extra) + 1 := by omega
    rw [he]
    simp only [execLoop]
    cases hssh : (oracle (attempt + 1)).ssh with
    | ok output =>
      dsimp only
      cases han : (oracle (attempt + 1)).analysis with
      | ok an =>
        dsimp only
        by_cases hc1 : an.success = true ∧ ¬an.needs_retry = true
        · simp only [if_pos hc1]
        · simp only [if_neg hc1]
          by_cases hc2 : an.needs_retry = true ∧ an.updated_command ≠ "" ∧
              attempt + 1 < max_retries
          · simp only [if_pos hc2]
            exact ih extra (attempt + 1) _ _ hc2.2.2 (by omega)
          · simp only [if_neg hc2]
      | error analysis_err => dsimp only
    | error e =>
      dsimp only
      by_cases hlt : attempt + 1 < max_retries
      · simp only [if_pos hlt]
        cases hres : (oracle (attempt + 1)).resolution with
        | ok r =>
          dsimp only
          exact ih extra (attempt + 1) _ _ hlt (by omega)
        | error resolution_err => dsimp only
      · simp only [if_neg hlt]

/-- Claim C10: for every retry budget `max_retries ≥ 1`,
`execute_and_analyze_step` always returns from inside its retry loop:
the number of recorded attempts never exceeds `max_retries` (both
retry paths being guarded by `attempt < max_retries` after the
increment), and the trailing "Max retries exceeded" return after the
loop is unreachable — giving the loop any amount of fuel beyond the
`while` bound leaves the result unchanged. -/
theorem C10_loop_always_returns (oracle : Nat → AttemptOracle) (step_name : String)
    (step_config : StepConfig) (cve_summary csaf_summary : String) (max_retries : Nat)
    (hmr : 1 ≤ max_retries) :
    (execute_and_analyze_step oracle step_name step_config cve_summary csaf_summary
        max_retries).log.attempts.length ≤ max_retries ∧
    ∀ extra_fuel,
      execLoop oracle max_retries (max_retries + 1 + extra_fuel) 0
          (step_config.command.getD "")
          { step := step_name, command := step_config.command.getD "",
            description := step_config.description.getD "",
            status := "pending", attempts := [] }
        = execute_and_analyze_step oracle step_name step_config cve_summary csaf_summary
            max_retries := by
  constructor
  · have h := execLoop_attempts_le oracle max_retries (max_retries + 1) 0
      (step_config.command.getD "")
      { step := step_name, command := step_config.command.getD "",
        description := step_config.description.getD "",
        status := "pending", attempts := [] }
      (by omega)
    simpa [execute_and_analyze_step] using h
  · intro extra_fuel
    exact execLoop_fuel_irrelevant oracle max_retries (max_retries + 1) extra_fuel 0
      (step_config.command.getD "")
      { step := step_name, command := step_config.command.getD "",
        description := step_config.description.getD "",
        status := "pending", attempts := [] }
      (by omega) (by omega)

/-- Claim C10 witness: a concrete run (always-failing command, budget
2) records at most 2 attempts, and 4 units of extra fuel change
nothing. -/
theorem C10_witness :
    (execute_and_analyze_step always_fail_oracle "verify_fix"
        { command := some "pip3 show setuptools" } "" "" 2).log.attempts.length ≤ 2 ∧
    execLoop always_fail_oracle 2 (2 + 1 + 4) 0 "pip3 show setuptools"
        { step := "verify_fix", command := "pip3 show setuptools",
          description := "", status := "pending", attempts := [] }
      = execute_and_analyze_step always_fail_oracle "verify_fix"
          { command := some "pip3 show setuptools" } "" "" 2 :=
  ⟨(C10_loop_always_returns always_fail_oracle "verify_fix"
      { command := some "pip3 show setuptools" } "" "" 2 (by omega)).1,
   (C10_loop_always_returns always_fail_oracle "verify_fix"
      { command := some "pip3 show setuptools" } "" "" 2 (by omega)).2 4⟩

/-- Setting a key other than `s` does not change what `s` maps to
(map-replace part). -/
theorem dict_lookup_map_set {α : Type} (d : List (String × α)) (k s : String) (v : α)
    (h : k ≠ s) :
    dict_lookup s (d.map fun kv => if kv.1 = k then (k, v) else kv) = dict_lookup s d := by
  induction d with
  | nil => rfl
  | cons p rest ih =>
    simp only [List.map_cons]
    by_cases hp : p.1 = k
    · rw [if_pos hp]
      show dict_lookup s ((k, v) :: _) = dict_lookup s (p :: rest)
      unfold dict_lookup
      rw [if_neg h, if_neg (by rw [hp]; exact h), ih]
    · rw [if_neg hp]
      unfold dict_lookup
      rw [ih]

/-- Appending a binding for a key other than `s` does not change what
`s` maps to. -/
theorem dict_lookup_append_ne {α : Type} (d : List (String × α)) (k s : String) (v : α)
    (h : k ≠ s) :
    dict_lookup s (d ++ [(k, v)]) = dict_lookup s d := by
  induction d with
  | nil =>
    show dict_lookup s [(k, v)] = none
    unfold dict_lookup
    rw [if_neg h]
    rfl
  | cons p rest ih =>
    show dict_lookup s (p :: (rest ++ [(k, v)])) = _
    unfold dict_lookup
    rw [ih]

/-- `dict_set` at a key other than `s` does not change what `s` maps
to. -/
theorem dict_lookup_set_ne {α : Type} (d : List (String × α)) (k s : String) (v : α)
    (h : k ≠ s) :
    dict_lookup s (dict_set d k v) = dict_lookup s d := by
  unfold dict_set
  by_cases hk : (dict_lookup k d).isSome
  · rw [if_pos hk]
    exact dict_lookup_map_set d k s v h
  · rw [if_neg hk]
    exact dict_lookup_append_ne d k s v h

/-- `dict_update` with an update not containing key `s` does not change
what `s` maps to. -/
theorem dict_lookup_update_frame {α : Type} (u : List (String × α)) :
    ∀ d : List (String × α), ∀ s : String, dict_lookup s u = none →
      dict_lookup s (dict_update d u) = dict_lookup s d := by
  induction u with
  | nil => intro d s _; rfl
  | cons p rest ih =>
    intro d s h
    have hp : p.1 ≠ s := by
      intro hh
      unfold dict_lookup at h
      rw [if_pos hh] at h
      exact Option.noConfusion h
    have hr : dict_lookup s rest = none := by
      unfold dict_lookup at h
      rwa [if_neg hp] at h
    show dict_lookup s (dict_update (dict_set d p.1 p.2) rest) = _
    rw [ih (dict_set d p.1 p.2) s hr, dict_lookup_set_ne d p.1 s p.2 hp]

/-- One step of the fallback's per-key deep merge. -/
theorem dict_lookup_deep_step_ne (m : List (String × PVal)) (kv : String × PVal)
    (s : String) (h : kv.1 ≠ s) :
    dict_lookup s
      (match kv.2, dict_lookup kv.1 m with
       | PVal.obj vf, some (PVal.obj mf) => dict_set m kv.1 (PVal.obj (dict_update mf vf))
       | _, _ => m) = dict_lookup s m := by
  cases hv : kv.2 with
  | str s2 => rfl
  | obj vf =>
    cases hm : dict_lookup kv.1 m with
    | none => rfl
    | some pv =>
      cases pv with
      | str s3 => rfl
      | obj mf => exact dict_lookup_set_ne m kv.1 s _ h

/-- The whole fallback merge leaves every stage not named in
`user_changes` unchanged. -/
theorem fallback_merge_frame (existing_plan user_changes : List (String × PVal))
    (s : String) (h : dict_lookup s user_changes = none) :
    dict_lookup s (fallback_merge existing_plan user_changes)
      = dict_lookup s existing_plan := by
  unfold fallback_merge
  have aux : ∀ (l m : List (String × PVal)), dict_lookup s l = none →
      dict_lookup s
        (l.foldl
          (fun merged kv =>
            match kv.2, dict_lookup kv.1 merged with
            | PVal.obj vf, some (PVal.obj mf) =>
                dict_set merged kv.1 (PVal.obj (dict_update mf vf))
            | _, _ => merged)
          m) = dict_lookup s m := by
    intro l
    induction l with
    | nil => intro m _; rfl
    | cons p rest ih =>
      intro m hl
      have hp : p.1 ≠ s := by
        intro hh
        unfold dict_lookup at hl
        rw [if_pos hh] at hl
        exact Option.noConfusion hl
      have hr : dict_lookup s rest = none := by
        unfold dict_lookup at hl
        rwa [if_neg hp] at hl
      rw [List.foldl_cons, ih _ hr]
      exact dict_lookup_deep_step_ne m p s hp
  rw [aux user_changes _ h, dict_lookup_update_frame user_changes existing_plan s h]

/-- An existing plan whose pre-check stage the update does not touch. -/
def existing_plan_c6 : List (String × PVal) :=
  [("pre_checks", PVal.obj [("command", "cat /etc/os-release")]),
   ("verify_fix", PVal.obj [("command", "pip show setuptools")])]

/-- A partial update touching only the verify stage. -/
def user_changes_c6 : List (String × PVal) :=
  [("verify_fix", PVal.obj [("command", "pip3 show setuptools")])]

/-- A model reply to the merge prompt that returns only the updated
stage, dropping the untouched ones — which the source uses verbatim. -/
def llm_merged_c6 : List (String × PVal) :=
  [("verify_fix", PVal.obj [("command", "pip3 show setuptools")])]

/-- Claim C6 counterexample: on the primary path the merged plan is
whatever object the model returns, so an untouched stage
("pre_checks") can disappear even though the update never names it. -/
theorem C6_counterexample :
    ¬ (dict_lookup "pre_checks"
         (merge_remediation_plans (Except.ok llm_merged_c6) (some existing_plan_c6)
           (some user_changes_c6) "change the verify command to pip3")
       = dict_lookup "pre_checks" existing_plan_c6) := by
  decide

/-- Claim C6 (amended): the untouched-stage guarantee holds on the
deterministic fallback path, taken when the model merge raises (bad
reply or failed call): then every stage of the existing plan whose
name does not appear in the partial update is unchanged in the merged
result.  On the primary path the result is whatever plan object the
model returns, with no such guarantee. -/
theorem C6_fallback_preserves_untouched_stages (err user_input s : String)
    (existing_plan user_changes : List (String × PVal))
    (h : dict_lookup s user_changes = none) :
    dict_lookup s
      (merge_remediation_plans (Except.error err) (some existing_plan)
        (some user_changes) user_input)
      = dict_lookup s existing_plan := by
  unfold merge_remediation_plans
  cases huc : user_changes with
  | nil =>
    simp only [opt_truthy]
    cases hep : existing_plan with
    | nil => simp
    | cons q eprest => simp
  | cons p ucrest =>
    rw [← huc]
    have htruthy : opt_truthy (some user_changes) = true := by
      rw [huc]; rfl
    simp only [htruthy, if_true, Option.getD_some]
    cases hep : existing_plan with
    | nil =>
      simp only [opt_truthy, List.isEmpty_nil, Bool.not_true, Bool.false_eq_true, if_false]
      rw [← hep]
      have : dict_lookup s existing_plan = none := by rw [hep]; rfl
      rw [this]
      exact h
    | cons q eprest =>
      rw [← hep]
      have htruthy2 : opt_truthy (some existing_plan) = true := by
        rw [hep]; rfl
      simp only [htruthy2, if_true, Option.getD_some]
      exact fallback_merge_frame existing_plan user_changes s h

/-- Claim C6 witness: the same concrete plans through the fallback
path preserve the untouched pre-check stage. -/
theorem C6_witness :
    dict_lookup "pre_checks"
      (merge_remediation_plans
        (Except.error "Expecting value: line 1 column 1 (char 0)")
        (some existing_plan_c6) (some user_changes_c6)
        "change the verify command to pip3")
      = dict_lookup "pre_checks" existing_plan_c6 :=
  C6_fallback_preserves_untouched_stages "Expecting value: line 1 column 1 (char 0)"
    "change the verify command to pip3" "pre_checks"
    existing_plan_c6 user_changes_c6 (by decide)

end CvePatcher
